import Mathlib

/-!
Verification development for the Lunar-Base-Sandbox colony simulator.

The TypeScript source has two variants of the core engine:
  * the extended variant in `src/App.tsx` (atmosphere/food simulation, terrain
    heights, organic auto-builder), and
  * the basic variant in `src/unnamed/part_000` (no atmosphere, flat terrain).

Modelling conventions (shallow embedding):
  * JavaScript numbers are modelled as exact rationals (`ℚ`); `Math.floor`
    is `Int.floor`, `Math.abs` is `abs`, `Math.min` is `min`, `Math.max` is
    `max`.
  * The grid (a JS array of arrays, fixed size `mapSize × mapSize`, every
    access in bounds) is modelled as a total function `ℤ → ℤ → TileData`;
    `tileAt g x y` is `grid[y][x]`.  The tick's `grid.flat()` traversal is
    the row-major enumeration `tilesOf`.
  * React `useState` state is passed explicitly: each handler is a pure
    function from the state it reads to the state it writes, news items are
    returned as a list (their `Date.now()` ids are not modelled).
  * `Math.random()` draws are injected as oracle arguments (an index pick, a
    boolean roll, a list of candidate coordinates, a cosmetic variant), so
    every theorem quantifies over all possible draws.
  * The repository's `constants.tsx` present under `src/` is an early basic
    snapshot; the extended catalog (`BUILDINGS` with food/oxygen/CO2 yields
    and footprints), the `TECH_TREE` data and the `POP_*` consumption-rate
    constants imported by `App.tsx` are not in the sources.  They are data,
    not logic, so the embedding is parameterised over them (a catalog
    function `BuildingType → BuildingConfig`, a `Params` record of rates and
    a `List TechNode`); the literal numbers that do appear in `App.tsx`
    (death rates 0.1/0.05/0.2/0.02, housing capacity 50, evacuation step 5,
    demolition fee 50, auto-build thresholds 300/80/2/0.85/0.9/3500/2000,
    clamp bounds 0/100/300/400/2000) are used verbatim.
-/

namespace LunarBase

/-- Building kinds, from `src/types.ts` (`enum BuildingType`), plus the
`GreenRoad` kind referenced throughout the extended `src/App.tsx` (its
extended `types.ts` is not among the sources). -/
inductive BuildingType where
  | None
  | Road
  | Residential
  | Commercial
  | Industrial
  | Agriculture
  | Park
  | SolarPanel
  | FusionReactor
  | ResearchLab
  | GreenRoad
deriving DecidableEq, Repr

/-- Catalog entry, from `src/types.ts` (`interface BuildingConfig`), with the
extended per-tick yields used by `src/App.tsx` (food/oxygen/CO2). -/
structure BuildingConfig where
  cost : ℚ
  name : String
  popGen : ℚ
  incomeGen : ℚ
  powerGen : ℚ
  scienceGen : ℚ
  width : ℕ
  height : ℕ
  foodGen : ℚ
  oxygenGen : ℚ
  co2Gen : ℚ
deriving DecidableEq

/-- The catalog `BUILDINGS` is a total lookup from kind to config. -/
def Catalog := BuildingType → BuildingConfig

/-- A tile, from `src/types.ts` (`interface TileData`) plus the terrain
`height` field used by the extended variant. -/
structure TileData where
  x : ℤ
  y : ℤ
  buildingType : BuildingType
  ownerX : Option ℤ := none
  ownerY : Option ℤ := none
  variant : Option ℕ := none
  height : ℤ := 0
deriving DecidableEq

/-- The grid as a total function; `tileAt g x y` models `grid[y][x]`. -/
def GridF := ℤ → ℤ → TileData

/-- `grid[y][x]`. -/
def tileAt (g : GridF) (x y : ℤ) : TileData := g x y

/-- Row-major tile enumeration, modelling `grid.flat()` for an
`n × n` grid. -/
def tilesOf (g : GridF) (n : ℕ) : List TileData :=
  (List.range n).flatMap fun (y : ℕ) =>
    (List.range n).map fun (x : ℕ) => tileAt g (x : ℤ) (y : ℤ)

/-- Extended city stats, from `src/App.tsx` initial state (lines 54-64). -/
structure CityStats where
  money : ℚ
  population : ℚ
  day : ℚ
  science : ℚ
  powerSupply : ℚ
  powerDemand : ℚ
  oxygen : ℚ
  co2 : ℚ
  food : ℚ
deriving DecidableEq

/-- Basic-variant city stats, from `src/unnamed/part_000` (lines 33-40). -/
structure CityStatsB where
  money : ℚ
  population : ℚ
  day : ℚ
  science : ℚ
  powerSupply : ℚ
  powerDemand : ℚ
deriving DecidableEq

/-- Initial extended stats (`src/App.tsx` lines 54-64, `INITIAL_MONEY =
2000` from `src/constants.tsx`). -/
def initialStats : CityStats :=
  { money := 2000, population := 0, day := 1, science := 0,
    powerSupply := 0, powerDemand := 0, oxygen := 100, co2 := 400, food := 100 }

/-- Per-capita consumption/production rates imported by `src/App.tsx` from
the (absent) extended constants file; kept as parameters. -/
structure Params where
  popFoodConsumption : ℚ
  popO2Consumption : ℚ
  popCO2Production : ℚ

/-- Goal metric kinds, from `src/types.ts` (`AIGoal.targetType`). -/
inductive TargetType where
  | population
  | money
  | building_count
  | science
deriving DecidableEq, Repr

/-- An AI goal, from `src/types.ts` (`interface AIGoal`). -/
structure AIGoal where
  description : String
  targetType : TargetType
  targetValue : ℚ
  buildingType : Option BuildingType := none
  reward : ℚ
  completed : Bool
deriving DecidableEq

/-- News sentiment, from `src/types.ts` (`NewsItem.type`). -/
inductive NewsType where
  | positive
  | negative
  | neutral
deriving DecidableEq, Repr

/-- A news item (`src/types.ts`); the `Date.now()` id is not modelled. -/
structure NewsItem where
  text : String
  type : NewsType
deriving DecidableEq

/-- A tech node, from `src/types.ts` (`interface TechNode`). -/
structure TechNode where
  id : String
  name : String
  description : String
  cost : ℚ
  unlocks : List BuildingType
  prerequisites : List String

/-! ## Grid footprint mutation

`src/App.tsx` placement (lines 559-569) and demolition (lines 497-509) walk
the footprint rectangle `i < width, j < height` writing the cell at
`(x+i, y+j)`; demolition additionally guards each write with
`rootY+j < mapSize && rootX+i < mapSize`. -/

/-- The footprint cells `(x+i, y+j)` for `i < w`, `j < h`, in the source's
loop order (`i` outer, `j` inner). -/
def rectCells (x y : ℤ) (w h : ℕ) : List (ℤ × ℤ) :=
  (List.range w).flatMap fun (i : ℕ) =>
    (List.range h).map fun (j : ℕ) => (x + (i : ℤ), y + (j : ℤ))

/-- Overwriting one cell of the functional grid. -/
def updateCell (g : GridF) (c : ℤ × ℤ) (f : TileData → TileData) : GridF :=
  fun px py => if px = c.1 ∧ py = c.2 then f (g px py) else g px py

/-- `newGrid[y+j][x+i] = { ...old, buildingType: tool, ownerX: x, ownerY: y,
variant }` over the whole footprint (placement loop). -/
def placeFootprint (g : GridF) (x y : ℤ) (w h : ℕ) (t : BuildingType)
    (v : ℕ) : GridF :=
  (rectCells x y w h).foldl
    (fun acc c => updateCell acc c fun old =>
      { old with buildingType := t, ownerX := some x, ownerY := some y,
                 variant := some v })
    g

/-- Resetting a tile on demolition: kind to `None`, owner and variant
cleared (`src/App.tsx` lines 500-506). -/
def clearTile (old : TileData) : TileData :=
  { old with buildingType := BuildingType.None, ownerX := none,
             ownerY := none, variant := none }

/-- The demolition clear loop with its in-bounds guard
(`if (rootY+j < mapSize && rootX+i < mapSize)`). -/
def clearFootprint (g : GridF) (rootX rootY : ℤ) (w h : ℕ)
    (mapSize : ℤ) : GridF :=
  (rectCells rootX rootY w h).foldl
    (fun acc c => if c.2 < mapSize ∧ c.1 < mapSize
                  then updateCell acc c clearTile else acc)
    g

/-! ## Tick aggregation pass

`src/App.tsx` lines 287-325 (extended) and `src/unnamed/part_000` lines
190-219 (basic): fold over `grid.flat()`, dedupe multi-tile buildings by
their root id, and accumulate yields. -/

/-- The root id of a tile: `(ownerX, ownerY)` when `ownerX !== undefined`,
else the tile's own coordinates (string keys `"x,y"` in the source). -/
def rootId (t : TileData) : Option ℤ × Option ℤ :=
  if t.ownerX.isSome then (t.ownerX, t.ownerY) else (some t.x, some t.y)

/-- Accumulator of the extended aggregation pass: the `processedRoots` set
and the per-tick totals. -/
structure AggSt where
  processed : List (Option ℤ × Option ℤ)
  powerGen : ℚ
  powerDrain : ℚ
  dailyIncome : ℚ
  dailyPopGrowth : ℚ
  dailyScience : ℚ
  bioFoodGen : ℚ
  bioO2Gen : ℚ
  bioCO2Gen : ℚ
  counts : BuildingType → ℕ

/-- Empty accumulator (all totals zero). -/
def aggInit : AggSt :=
  { processed := [], powerGen := 0, powerDrain := 0, dailyIncome := 0,
    dailyPopGrowth := 0, dailyScience := 0, bioFoodGen := 0, bioO2Gen := 0,
    bioCO2Gen := 0, counts := fun _ => 0 }

/-- One step of the extended aggregation pass (`src/App.tsx` lines
300-325). -/
def aggStep (cat : Catalog) (st : AggSt) (t : TileData) : AggSt :=
  if t.buildingType = BuildingType.None then st
  else
    let rid := rootId t
    if rid ∈ st.processed then st
    else
      let config := cat t.buildingType
      { processed := rid :: st.processed
        powerGen := if config.powerGen > 0 then st.powerGen + config.powerGen
                    else st.powerGen
        powerDrain := if config.powerGen > 0 then st.powerDrain
                      else st.powerDrain + |config.powerGen|
        dailyIncome := st.dailyIncome + config.incomeGen
        dailyPopGrowth := st.dailyPopGrowth + config.popGen
        dailyScience := st.dailyScience + config.scienceGen
        bioFoodGen := st.bioFoodGen + config.foodGen
        bioO2Gen := st.bioO2Gen + config.oxygenGen
        bioCO2Gen := st.bioCO2Gen + config.co2Gen
        counts := fun b => if b = t.buildingType then st.counts b + 1
                           else st.counts b }

/-- The extended aggregation pass over the whole grid. -/
def aggregate (cat : Catalog) (g : GridF) (n : ℕ) : AggSt :=
  (tilesOf g n).foldl (aggStep cat) aggInit

/-- Accumulator of the basic aggregation pass (no bio yields),
`src/unnamed/part_000` lines 190-219. -/
structure AggStB where
  processed : List (Option ℤ × Option ℤ)
  powerGen : ℚ
  powerDrain : ℚ
  dailyIncome : ℚ
  dailyPopGrowth : ℚ
  dailyScience : ℚ
  counts : BuildingType → ℕ

/-- Empty basic accumulator. -/
def aggInitB : AggStB :=
  { processed := [], powerGen := 0, powerDrain := 0, dailyIncome := 0,
    dailyPopGrowth := 0, dailyScience := 0, counts := fun _ => 0 }

/-- One step of the basic aggregation pass. -/
def aggStepB (cat : Catalog) (st : AggStB) (t : TileData) : AggStB :=
  if t.buildingType = BuildingType.None then st
  else
    let rid := rootId t
    if rid ∈ st.processed then st
    else
      let config := cat t.buildingType
      { processed := rid :: st.processed
        powerGen := if config.powerGen > 0 then st.powerGen + config.powerGen
                    else st.powerGen
        powerDrain := if config.powerGen > 0 then st.powerDrain
                      else st.powerDrain + |config.powerGen|
        dailyIncome := st.dailyIncome + config.incomeGen
        dailyPopGrowth := st.dailyPopGrowth + config.popGen
        dailyScience := st.dailyScience + config.scienceGen
        counts := fun b => if b = t.buildingType then st.counts b + 1
                           else st.counts b }

/-- The basic aggregation pass over the whole grid. -/
def aggregateB (cat : Catalog) (g : GridF) (n : ℕ) : AggStB :=
  (tilesOf g n).foldl (aggStepB cat) aggInitB

/-! ## Power penalty (step 2 of the tick) -/

/-- `powerRatio = powerDrain > 0 ? Math.min(1, powerGen / powerDrain) : 1`
(`src/App.tsx` line 328, `src/unnamed/part_000` line 222). -/
def powerRatio (powerGen powerDrain : ℚ) : ℚ :=
  if powerDrain > 0 then min 1 (powerGen / powerDrain) else 1

/-! ## Survival check (extended tick, `src/App.tsx` lines 379-389) -/

/-- The extended tick's death toll: starvation deaths, suffocation deaths
(note the source's `else if (newO2 < 5)` branch), CO2 toxicity deaths. -/
def deathToll (starvation newO2 newCO2 pop : ℚ) : ℚ :=
  let t0 : ℚ := 0
  let t1 := if starvation > 0 then t0 + ⌊starvation * (0.1 : ℚ)⌋ else t0
  let t2 := if newO2 < 10 then t1 + ⌊pop * (0.05 : ℚ)⌋
            else if newO2 < 5 then t1 + ⌊pop * (0.2 : ℚ)⌋
            else t1
  if newCO2 > 2000 then t2 + ⌊pop * (0.02 : ℚ)⌋ else t2

/-! ## The extended tick (`src/App.tsx` lines 286-457, stats portion)

The auto-builder invocation and the probabilistic news/history side effects
do not touch the computation of `newStats` and are modelled separately. -/

/-- The extended tick's stats update downstream of the power penalty
(`src/App.tsx` lines 339-341 and 345-419): housing cap, food, atmosphere,
survival check, population clamp, money/science/day bookkeeping.  The
arguments are this tick's (possibly power-penalised) totals. -/
def tickCore (pr : Params) (prev : CityStats)
    (dailyIncome dailyPopGrowth dailyScience bioFoodGen bioO2Gen
     bioCO2Gen powerGen powerDrain : ℚ) (resCount rootsCount : ℕ) :
    CityStats :=
  let maxPop := (resCount : ℚ) * 50
  let pop := prev.population
  let foodNeeded := pop * pr.popFoodConsumption
  let newFood0 := prev.food + bioFoodGen - foodNeeded
  let starvation := if newFood0 < 0 then |newFood0| else 0
  let newFood := if newFood0 < 0 then 0 else newFood0
  let o2Consumed := pop * pr.popO2Consumption
  let co2Produced := pop * pr.popCO2Production
  let newO2a := prev.oxygen + bioO2Gen - o2Consumed
  let newCO2a := prev.co2 + co2Produced + bioCO2Gen
  let newO2b := if pop = 0 ∧ rootsCount = 0 then 100 else newO2a
  let newCO2b := if pop = 0 ∧ rootsCount = 0 then 400 else newCO2a
  let newO2c := if newO2b > 100 then 100 else newO2b
  let newO2 := if newO2c < 0 then 0 else newO2c
  let newCO2 := if newCO2b < 300 then 300 else newCO2b
  let toll := deathToll starvation newO2 newCO2 pop
  let newPop0 := pop + dailyPopGrowth - toll
  let newPop1 := if newPop0 > maxPop then maxPop else newPop0
  let newPop := if newPop1 < 0 then 0 else newPop1
  { money := prev.money + dailyIncome
    population := newPop
    day := prev.day + 1
    science := prev.science + dailyScience
    powerSupply := powerGen
    powerDemand := powerDrain
    oxygen := newO2
    co2 := newCO2
    food := newFood }

/-- One extended tick's stats update: aggregation, power penalty
(`src/App.tsx` lines 328-337), then `tickCore`. -/
def tickStats (pr : Params) (cat : Catalog) (g : GridF) (n : ℕ)
    (prev : CityStats) : CityStats :=
  let a := aggregate cat g n
  let ratio := powerRatio a.powerGen a.powerDrain
  let isLowPower := ratio < 1
  tickCore pr prev
    (if isLowPower then (⌊a.dailyIncome * ratio⌋ : ℚ) else a.dailyIncome)
    (if isLowPower then 0 else a.dailyPopGrowth)
    (if isLowPower then (⌊a.dailyScience * ratio⌋ : ℚ) else a.dailyScience)
    (if isLowPower then (⌊a.bioFoodGen * ratio⌋ : ℚ) else a.bioFoodGen)
    (if isLowPower then a.bioO2Gen * ratio else a.bioO2Gen)
    a.bioCO2Gen a.powerGen a.powerDrain
    (a.counts BuildingType.Residential) a.processed.length

/-- The basic tick's stats update downstream of the power penalty
(`src/unnamed/part_000` lines 231-249). -/
def tickCoreB (prev : CityStatsB)
    (dailyIncome dailyPopGrowth dailyScience powerGen powerDrain : ℚ)
    (resCount : ℕ) : CityStatsB :=
  let maxPop := (resCount : ℚ) * 50
  let newPop0 := prev.population + dailyPopGrowth
  let newPop1 := if newPop0 > maxPop then maxPop else newPop0
  let newPop := if resCount = 0 ∧ prev.population > 0
                then max 0 (prev.population - 5) else newPop1
  { money := prev.money + dailyIncome
    population := newPop
    day := prev.day + 1
    science := prev.science + dailyScience
    powerSupply := powerGen
    powerDemand := powerDrain }

/-- One basic tick's stats update (`src/unnamed/part_000` lines 189-249). -/
def tickStatsB (cat : Catalog) (g : GridF) (n : ℕ)
    (prev : CityStatsB) : CityStatsB :=
  let a := aggregateB cat g n
  let ratio := powerRatio a.powerGen a.powerDrain
  let isLowPower := ratio < 1
  tickCoreB prev
    (if isLowPower then (⌊a.dailyIncome * ratio⌋ : ℚ) else a.dailyIncome)
    (if isLowPower then 0 else a.dailyPopGrowth)
    (if isLowPower then (⌊a.dailyScience * ratio⌋ : ℚ) else a.dailyScience)
    a.powerGen a.powerDrain
    (a.counts BuildingType.Residential)

/-- Iterated extended ticks from the initial stats, against a per-tick grid
snapshot sequence `gs` (the grid may change between ticks through player or
auto-builder placements). -/
def runTicks (pr : Params) (cat : Catalog) (gs : ℕ → GridF) (n : ℕ) :
    ℕ → CityStats
  | 0 => initialStats
  | k + 1 => tickStats pr cat (gs k) n (runTicks pr cat gs n k)

/-! ## Goal evaluation (`src/App.tsx` lines 441-454) and reward claim
(lines 576-583) -/

/-- The `isMet` computation of the tick's goal check (`src/App.tsx` lines
443-449): the four `if`s each compare the relevant new stat (or per-kind
count) against the target with `>=`. -/
def goalIsMet (goalV : AIGoal) (ns : CityStats)
    (buildingCounts : BuildingType → ℕ) : Bool :=
  decide (goalV.targetType = TargetType.money ∧
    ns.money ≥ goalV.targetValue) ||
  decide (goalV.targetType = TargetType.population ∧
    ns.population ≥ goalV.targetValue) ||
  decide (goalV.targetType = TargetType.science ∧
    ns.science ≥ goalV.targetValue) ||
  (decide (goalV.targetType = TargetType.building_count) &&
    (match goalV.buildingType with
     | some b => decide ((buildingCounts b : ℚ) ≥ goalV.targetValue)
     | none => false))

/-- The tick's goal check: with the AI enabled and an active, not-yet
completed goal, compute `isMet` from the new stats and this tick's
building counts and mark the goal completed in place when it holds. -/
def checkGoal (aiEnabled : Bool) (goal : Option AIGoal) (ns : CityStats)
    (buildingCounts : BuildingType → ℕ) : Option AIGoal :=
  match goal with
  | none => none
  | some goalV =>
    if aiEnabled && !goalV.completed then
      if goalIsMet goalV ns buildingCounts
      then some { goalV with completed := true } else some goalV
    else goal

/-- One full extended tick: the stats update and the goal evaluation, wired
as in the source (`newStats` first, then `checkGoal` against it and this
tick's `buildingCounts`). -/
def tickFull (pr : Params) (cat : Catalog) (g : GridF) (n : ℕ)
    (prev : CityStats) (aiEnabled : Bool) (goal : Option AIGoal) :
    CityStats × Option AIGoal :=
  let ns := tickStats pr cat g n prev
  (ns, checkGoal aiEnabled goal ns (aggregate cat g n).counts)

/-- `handleClaimReward`: if a completed goal is active, credit its reward
and clear the goal; otherwise do nothing. -/
def handleClaimReward (goal : Option AIGoal) (money : ℚ) :
    Option AIGoal × ℚ :=
  match goal with
  | some currentGoal =>
    if currentGoal.completed then (none, money + currentGoal.reward)
    else (goal, money)
  | none => (goal, money)

/-! ## Research action (`src/App.tsx` lines 105-116, identical in
`src/unnamed/part_000` lines 79-90) -/

/-- Result of `handleUnlockTech`: new science, new unlocked-tech list, and
the emitted news item (if any). -/
structure UnlockResult where
  science : ℚ
  unlockedTechs : List String
  news : Option NewsItem
deriving DecidableEq

/-- `handleUnlockTech`: look the id up in the tech tree; if affordable,
debit science and append the id, else emit a negative notice.  The tree is
a parameter (the `TECH_TREE` data file is not among the sources). -/
def handleUnlockTech (techTree : List TechNode) (techId : String)
    (science : ℚ) (unlockedTechs : List String) : UnlockResult :=
  match techTree.find? (fun t => t.id = techId) with
  | none => { science := science, unlockedTechs := unlockedTechs, news := none }
  | some tech =>
    if science ≥ tech.cost then
      { science := science - tech.cost
        unlockedTechs := unlockedTechs ++ [techId]
        news := some { text := "Research Completed: " ++ tech.name,
                       type := NewsType.positive } }
    else
      { science := science, unlockedTechs := unlockedTechs
        news := some { text := "Insufficient Science for " ++ tech.name,
                       type := NewsType.negative } }

/-! ## Player interaction (`src/App.tsx` lines 474-574, extended
`handleTileClick`) -/

/-- Result of a tile click: new grid, new stats, emitted news items. -/
structure ClickResult where
  grid : GridF
  stats : CityStats
  news : List NewsItem

/-- The placement validity scan (`src/App.tsx` lines 530-546): a covered
tile blocks placement when it is occupied — except a `Road` tile under the
`GreenRoad` tool — or when its height differs from the origin tile's. -/
def occupiedOrUneven (g : GridF) (tool : BuildingType) (x y : ℤ)
    (w h : ℕ) : Bool :=
  let baseHeight := (tileAt g x y).height
  (rectCells x y w h).any fun c =>
    let t := tileAt g c.1 c.2
    (if tool = BuildingType.GreenRoad ∧ t.buildingType = BuildingType.Road
     then false
     else decide (t.buildingType ≠ BuildingType.None)) ||
    decide (t.height ≠ baseHeight)

/-- `handleTileClick`: bulldoze (tool `None`) or place, with all the
rejection paths of the source.  `moonView` is `viewMode === 'moon'`;
`variant` is the `Math.floor(Math.random() * 4)` draw. -/
def handleTileClick (cat : Catalog) (mapSize : ℤ)
    (unlockedBuildings : List BuildingType) (tool : BuildingType)
    (gameStarted moonView : Bool) (variant : ℕ) (g : GridF)
    (stats : CityStats) (x y : ℤ) : ClickResult :=
  if ¬gameStarted ∨ moonView then ⟨g, stats, []⟩
  else if x < 0 ∨ x ≥ mapSize ∨ y < 0 ∨ y ≥ mapSize then ⟨g, stats, []⟩
  else
    let clickedTile := tileAt g x y
    let buildingConfig := cat tool
    if tool = BuildingType.None then
      if clickedTile.buildingType ≠ BuildingType.None then
        if stats.money ≥ 50 then
          let rootX := clickedTile.ownerX.getD clickedTile.x
          let rootY := clickedTile.ownerY.getD clickedTile.y
          let targetConfig := cat (tileAt g rootX rootY).buildingType
          ⟨clearFootprint g rootX rootY targetConfig.width
              targetConfig.height mapSize,
           { stats with money := stats.money - 50 }, []⟩
        else
          ⟨g, stats, [{ text := "Insufficient credits for demolition crews.",
                        type := NewsType.negative }]⟩
      else ⟨g, stats, []⟩
    else if tool ∉ unlockedBuildings then
      ⟨g, stats, [{ text := "Technology not yet researched.",
                    type := NewsType.negative }]⟩
    else if x + buildingConfig.width > mapSize ∨
            y + buildingConfig.height > mapSize then
      ⟨g, stats, [{ text := "Cannot place here: Outside colony bounds.",
                    type := NewsType.negative }]⟩
    else if occupiedOrUneven g tool x y buildingConfig.width
              buildingConfig.height then
      ⟨g, stats, [{ text := "Sector occupied or uneven terrain.",
                    type := NewsType.negative }]⟩
    else if stats.money ≥ buildingConfig.cost then
      ⟨placeFootprint g x y buildingConfig.width buildingConfig.height tool
          variant,
       { stats with money := stats.money - buildingConfig.cost }, []⟩
    else
      ⟨g, stats, [{ text := "Insufficient credits for " ++
                       buildingConfig.name ++ ".",
                    type := NewsType.negative }]⟩

/-! ## Auto-Builder (`src/App.tsx` lines 152-280, extended variant)

The `Math.random()` draws are injected through `AutoOracle`:
`ecoIdx` is the economy-pick index, `greenRoadRoll` is
`Math.random() > 0.7`, `attempts` is the list of candidate coordinates
produced by the random hub/angle/distance sampling (each run of the source
draws at most 20 such integer pairs; the safety theorems hold for every
possible list), and `variant` is the cosmetic-variant draw. -/

structure AutoOracle where
  ecoIdx : ℕ
  greenRoadRoll : Bool
  attempts : List (ℤ × ℤ)
  variant : ℕ

/-- The auto-builder's validity scan (`src/App.tsx` lines 249-258): a spot
is rejected when any covered tile is occupied or not at the origin tile's
height (no `GreenRoad` exception here). -/
def autoSpotBlocked (g : GridF) (x y : ℤ) (w h : ℕ) : Bool :=
  let baseHeight := (tileAt g x y).height
  (rectCells x y w h).any fun c =>
    let t := tileAt g c.1 c.2
    decide (t.buildingType ≠ BuildingType.None) ||
    decide (t.height ≠ baseHeight)

/-- The site-search loop (`src/App.tsx` lines 236-258): try each candidate
in order, skipping out-of-bounds, over-the-edge and occupied/uneven spots;
the first valid spot wins. -/
def findSite (g : GridF) (mapSize : ℤ) (w h : ℕ) :
    List (ℤ × ℤ) → Option (ℤ × ℤ)
  | [] => none
  | (x, y) :: rest =>
    if x < 0 ∨ y < 0 ∨ x ≥ mapSize ∨ y ≥ mapSize then
      findSite g mapSize w h rest
    else if x + w > mapSize ∨ y + h > mapSize then
      findSite g mapSize w h rest
    else if autoSpotBlocked g x y w h then
      findSite g mapSize w h rest
    else some (x, y)

/-- The residential roots count of `attemptAutoBuild` (`src/App.tsx` lines
166-170): a `Residential` tile counts when it has no owner or is its own
owner. -/
def autoResidentialCount (g : GridF) (n : ℕ) : ℕ :=
  ((tilesOf g n).filter fun t =>
    (t.buildingType = BuildingType.Residential ∧ t.ownerX = none) ∨
    (t.buildingType = BuildingType.Residential ∧ t.ownerX = some t.x ∧
      t.ownerY = some t.y)).length

/-- The priority-ordered target-kind selection (`src/App.tsx` lines
161-209). -/
def autoTarget (available : List BuildingType) (stats : CityStats)
    (g : GridF) (n : ℕ) (o : AutoOracle) : Option BuildingType :=
  let powerRatio := if stats.powerSupply > 0
                    then stats.powerDemand / stats.powerSupply else 1.1
  let foodStock := stats.food
  let oxygen := stats.oxygen
  let residentialCount := autoResidentialCount g n
  let maxPop := (residentialCount : ℚ) * 50
  let popRatio := if maxPop > 0 then stats.population / maxPop else 1.1
  if oxygen < 80 ∨ foodStock < stats.population * 2 then
    if BuildingType.Agriculture ∈ available then some BuildingType.Agriculture
    else if BuildingType.Park ∈ available then some BuildingType.Park
    else none
  else if powerRatio > 0.85 then
    if BuildingType.FusionReactor ∈ available ∧ stats.money > 3500 then
      some BuildingType.FusionReactor
    else if BuildingType.SolarPanel ∈ available then
      some BuildingType.SolarPanel
    else none
  else if popRatio > 0.9 then
    if BuildingType.Residential ∈ available then some BuildingType.Residential
    else none
  else
    let ecoOptions :=
      (if BuildingType.Agriculture ∈ available
       then [BuildingType.Agriculture] else []) ++
      (if BuildingType.Commercial ∈ available
       then [BuildingType.Commercial] else []) ++
      (if BuildingType.Industrial ∈ available
       then [BuildingType.Industrial] else []) ++
      (if BuildingType.Park ∈ available then [BuildingType.Park] else []) ++
      (if BuildingType.ResearchLab ∈ available ∧ stats.money > 2000
       then [BuildingType.ResearchLab] else []) ++
      (if BuildingType.GreenRoad ∈ available ∧ o.greenRoadRoll
       then [BuildingType.GreenRoad] else [])
    if hlen : ecoOptions.length > 0 then
      some (ecoOptions.get ⟨o.ecoIdx % ecoOptions.length,
        Nat.mod_lt _ hlen⟩)
    else none

/-- Result of `attemptAutoBuild`: new grid, new money, and the placement
(kind and origin) when one happened. -/
structure AutoResult where
  grid : GridF
  money : ℚ
  site : Option (BuildingType × ℤ × ℤ)

/-! ### Basic-variant Auto-Builder (`src/unnamed/part_000` lines 126-183)

The power-priority block at lines 132-140 contains no executable code
(only comments), so it is not modelled.  The basic placement loop sets
owner coordinates but no cosmetic variant.  Its random draws are a
candidate-index pick and up to 20 uniformly random in-map coordinates
(`Math.floor(Math.random() * mapSize)`, always in `[0, mapSize)`). -/

structure AutoOracleB where
  pick : ℕ
  attempts : List (ℤ × ℤ)

/-- The basic variant's validity scan: occupancy only (the basic grid has
no terrain heights). -/
def autoSpotOccupiedB (g : GridF) (x y : ℤ) (w h : ℕ) : Bool :=
  (rectCells x y w h).any fun c =>
    decide ((tileAt g c.1 c.2).buildingType ≠ BuildingType.None)

/-- The basic site-search loop (`src/unnamed/part_000` lines 152-164):
skip spots whose footprint leaves the map or covers an occupied tile. -/
def findSiteB (g : GridF) (mapSize : ℤ) (w h : ℕ) :
    List (ℤ × ℤ) → Option (ℤ × ℤ)
  | [] => none
  | (x, y) :: rest =>
    if x + w > mapSize ∨ y + h > mapSize then findSiteB g mapSize w h rest
    else if autoSpotOccupiedB g x y w h then findSiteB g mapSize w h rest
    else some (x, y)

/-- The basic placement write (`src/unnamed/part_000` lines 167-177): kind
and owner coordinates, no variant. -/
def placeFootprintB (g : GridF) (x y : ℤ) (w h : ℕ)
    (t : BuildingType) : GridF :=
  (rectCells x y w h).foldl
    (fun acc c => updateCell acc c fun old =>
      { old with buildingType := t, ownerX := some x, ownerY := some y })
    g

/-- The random candidate pick `candidates[Math.floor(Math.random() *
candidates.length)]` guarded by the empty-list early return
(`if (candidates.length === 0) return`), with the draw injected as an
index reduced modulo the length. -/
def pickCandidate (candidates : List BuildingType) (pick : ℕ) :
    Option BuildingType :=
  if hlen : candidates.length > 0 then
    some (candidates.get ⟨pick % candidates.length, Nat.mod_lt _ hlen⟩)
  else none

/-- The basic `attemptAutoBuild`: 500-credit safety buffer, uniform pick
among unlocked kinds other than `None`/`Road`, affordability gate, then
the site search and placement with its debit. -/
def attemptAutoBuildB (cat : Catalog) (mapSize : ℤ)
    (available : List BuildingType) (g : GridF) (money : ℚ)
    (o : AutoOracleB) : AutoResult :=
  if money < 500 then ⟨g, money, none⟩
  else
    let candidates := available.filter fun b =>
      decide (b ≠ BuildingType.None ∧ b ≠ BuildingType.Road)
    match pickCandidate candidates o.pick with
    | none => ⟨g, money, none⟩
    | some typeToBuild =>
      let config := cat typeToBuild
      if money < config.cost then ⟨g, money, none⟩
      else
        match findSiteB g mapSize config.width config.height o.attempts with
        | none => ⟨g, money, none⟩
        | some (x, y) =>
          ⟨placeFootprintB g x y config.width config.height typeToBuild,
           money - config.cost, some (typeToBuild, x, y)⟩

/-- `attemptAutoBuild`: safety buffer, needs-based target selection,
affordability gate, site search, and the placement with its debit. -/
def attemptAutoBuild (cat : Catalog) (mapSize : ℤ) (n : ℕ)
    (available : List BuildingType) (g : GridF) (stats : CityStats)
    (o : AutoOracle) : AutoResult :=
  if stats.money < 300 then ⟨g, stats.money, none⟩
  else
    match autoTarget available stats g n o with
    | none => ⟨g, stats.money, none⟩
    | some targetType =>
      let config := cat targetType
      if stats.money < config.cost then ⟨g, stats.money, none⟩
      else
        match findSite g mapSize config.width config.height o.attempts with
        | none => ⟨g, stats.money, none⟩
        | some (x, y) =>
          ⟨placeFootprint g x y config.width config.height targetType
              o.variant,
           stats.money - config.cost, some (targetType, x, y)⟩

/-! ## Helper lemmas -/

/-- Clamping from above by `hi` gives a value `≤ hi`. -/
lemma ite_clamp_le (x hi : ℚ) : (if x > hi then hi else x) ≤ hi := by
  split <;> linarith [le_refl hi]

/-- Clamping from below by `0` gives a nonnegative value. -/
lemma ite_clamp_nonneg (x : ℚ) : 0 ≤ if x < 0 then 0 else x := by
  split <;> linarith

/-- Clamping from below by `0` preserves an upper bound `hi ≥ 0`. -/
lemma ite_clamp_nonneg_le (x hi : ℚ) (h0 : 0 ≤ hi) (hx : x ≤ hi) :
    (if x < 0 then 0 else x) ≤ hi := by
  split <;> linarith

/-- Clamping from below by `lo` gives a value `≥ lo`. -/
lemma ite_clamp_ge (x lo : ℚ) : lo ≤ if x < lo then lo else x := by
  split <;> linarith

/-- One aggregation step cannot decrease the accumulated power
production, and adds to it only positive contributions. -/
lemma aggStep_powerGen_nonneg (cat : Catalog) (st : AggSt) (t : TileData)
    (h : 0 ≤ st.powerGen) : 0 ≤ (aggStep cat st t).powerGen := by
  simp only [aggStep]
  split
  · exact h
  · split
    · exact h
    · dsimp only
      split
      · linarith [(by assumption : (cat t.buildingType).powerGen > 0)]
      · exact h

/-- One aggregation step keeps the accumulated power drain
nonnegative (it only ever adds absolute values). -/
lemma aggStep_powerDrain_nonneg (cat : Catalog) (st : AggSt) (t : TileData)
    (h : 0 ≤ st.powerDrain) : 0 ≤ (aggStep cat st t).powerDrain := by
  simp only [aggStep]
  split
  · exact h
  · split
    · exact h
    · dsimp only
      split
      · exact h
      · have := abs_nonneg (cat t.buildingType).powerGen
        linarith

/-- Power production stays nonnegative through the aggregation fold. -/
lemma foldl_aggStep_powerGen_nonneg (cat : Catalog) :
    ∀ (l : List TileData) (st : AggSt), 0 ≤ st.powerGen →
      0 ≤ (l.foldl (aggStep cat) st).powerGen
  | [], _, h => h
  | t :: l, st, h =>
    foldl_aggStep_powerGen_nonneg cat l (aggStep cat st t)
      (aggStep_powerGen_nonneg cat st t h)

/-- Power drain stays nonnegative through the aggregation fold. -/
lemma foldl_aggStep_powerDrain_nonneg (cat : Catalog) :
    ∀ (l : List TileData) (st : AggSt), 0 ≤ st.powerDrain →
      0 ≤ (l.foldl (aggStep cat) st).powerDrain
  | [], _, h => h
  | t :: l, st, h =>
    foldl_aggStep_powerDrain_nonneg cat l (aggStep cat st t)
      (aggStep_powerDrain_nonneg cat st t h)

/-- The aggregated power production is nonnegative: only configs with
`powerGen > 0` contribute to it. -/
lemma aggregate_powerGen_nonneg (cat : Catalog) (g : GridF) (n : ℕ) :
    0 ≤ (aggregate cat g n).powerGen :=
  foldl_aggStep_powerGen_nonneg cat (tilesOf g n) aggInit le_rfl

/-- The aggregated power drain is nonnegative. -/
lemma aggregate_powerDrain_nonneg (cat : Catalog) (g : GridF) (n : ℕ) :
    0 ≤ (aggregate cat g n).powerDrain :=
  foldl_aggStep_powerDrain_nonneg cat (tilesOf g n) aggInit le_rfl

/-- One basic aggregation step keeps the accumulated power production
nonnegative. -/
lemma aggStepB_powerGen_nonneg (cat : Catalog) (st : AggStB) (t : TileData)
    (h : 0 ≤ st.powerGen) : 0 ≤ (aggStepB cat st t).powerGen := by
  simp only [aggStepB]
  split
  · exact h
  · split
    · exact h
    · dsimp only
      split
      · linarith [(by assumption : (cat t.buildingType).powerGen > 0)]
      · exact h

/-- One basic aggregation step keeps the accumulated power drain
nonnegative. -/
lemma aggStepB_powerDrain_nonneg (cat : Catalog) (st : AggStB)
    (t : TileData) (h : 0 ≤ st.powerDrain) :
    0 ≤ (aggStepB cat st t).powerDrain := by
  simp only [aggStepB]
  split
  · exact h
  · split
    · exact h
    · dsimp only
      split
      · exact h
      · have := abs_nonneg (cat t.buildingType).powerGen
        linarith

/-- Power production stays nonnegative through the basic aggregation
fold. -/
lemma foldl_aggStepB_powerGen_nonneg (cat : Catalog) :
    ∀ (l : List TileData) (st : AggStB), 0 ≤ st.powerGen →
      0 ≤ (l.foldl (aggStepB cat) st).powerGen
  | [], _, h => h
  | t :: l, st, h =>
    foldl_aggStepB_powerGen_nonneg cat l (aggStepB cat st t)
      (aggStepB_powerGen_nonneg cat st t h)

/-- Power drain stays nonnegative through the basic aggregation fold. -/
lemma foldl_aggStepB_powerDrain_nonneg (cat : Catalog) :
    ∀ (l : List TileData) (st : AggStB), 0 ≤ st.powerDrain →
      0 ≤ (l.foldl (aggStepB cat) st).powerDrain
  | [], _, h => h
  | t :: l, st, h =>
    foldl_aggStepB_powerDrain_nonneg cat l (aggStepB cat st t)
      (aggStepB_powerDrain_nonneg cat st t h)

/-- The basic aggregated power production is nonnegative. -/
lemma aggregateB_powerGen_nonneg (cat : Catalog) (g : GridF) (n : ℕ) :
    0 ≤ (aggregateB cat g n).powerGen :=
  foldl_aggStepB_powerGen_nonneg cat (tilesOf g n) aggInitB le_rfl

/-- The basic aggregated power drain is nonnegative. -/
lemma aggregateB_powerDrain_nonneg (cat : Catalog) (g : GridF) (n : ℕ) :
    0 ≤ (aggregateB cat g n).powerDrain :=
  foldl_aggStepB_powerDrain_nonneg cat (tilesOf g n) aggInitB le_rfl

/-- `powerRatio` is nonnegative whenever production is. -/
lemma powerRatio_nonneg (pg pd : ℚ) (hg : 0 ≤ pg) : 0 ≤ powerRatio pg pd := by
  unfold powerRatio
  split
  · exact le_min zero_le_one (div_nonneg hg (by linarith [(by assumption : pd > 0)]))
  · exact zero_le_one

/-- `powerRatio` never exceeds 1. -/
lemma powerRatio_le_one (pg pd : ℚ) : powerRatio pg pd ≤ 1 := by
  unfold powerRatio
  split
  · exact min_le_left _ _
  · exact le_refl 1

/-- With zero drain the ratio is exactly 1. -/
lemma powerRatio_drain_zero (pg : ℚ) : powerRatio pg 0 = 1 := by
  unfold powerRatio
  norm_num

/-- The population computed by `tickCore` is nonnegative (the final clamp). -/
lemma tickCore_population_nonneg (pr : Params) (prev : CityStats)
    (di dg ds bf bo bc pg pd : ℚ) (rc rt : ℕ) :
    0 ≤ (tickCore pr prev di dg ds bf bo bc pg pd rc rt).population :=
  ite_clamp_nonneg _

/-- The population computed by `tickCore` respects the housing cap
`resCount × 50`. -/
lemma tickCore_population_le (pr : Params) (prev : CityStats)
    (di dg ds bf bo bc pg pd : ℚ) (rc rt : ℕ) :
    (tickCore pr prev di dg ds bf bo bc pg pd rc rt).population ≤
      (rc : ℚ) * 50 :=
  ite_clamp_nonneg_le _ _ (by positivity) (ite_clamp_le _ _)

/-- With zero residential buildings the hard cap is 0, so `tickCore`
clamps the population to exactly 0. -/
lemma tickCore_population_resZero (pr : Params) (prev : CityStats)
    (di dg ds bf bo bc pg pd : ℚ) (rt : ℕ) :
    (tickCore pr prev di dg ds bf bo bc pg pd 0 rt).population = 0 := by
  have h1 := tickCore_population_nonneg pr prev di dg ds bf bo bc pg pd 0 rt
  have h2 := tickCore_population_le pr prev di dg ds bf bo bc pg pd 0 rt
  push_cast at h2
  linarith

/-- `tickCore` clamps oxygen into `[0, 100]` and CO2 to at least 300. -/
lemma tickCore_atmosphere_bounds (pr : Params) (prev : CityStats)
    (di dg ds bf bo bc pg pd : ℚ) (rc rt : ℕ) :
    0 ≤ (tickCore pr prev di dg ds bf bo bc pg pd rc rt).oxygen ∧
    (tickCore pr prev di dg ds bf bo bc pg pd rc rt).oxygen ≤ 100 ∧
    300 ≤ (tickCore pr prev di dg ds bf bo bc pg pd rc rt).co2 :=
  ⟨ite_clamp_nonneg _,
   ite_clamp_nonneg_le _ _ (by norm_num) (ite_clamp_le _ _),
   ite_clamp_ge _ _⟩

/-- `tickStats` is `tickCore` applied to the power-penalised totals. -/
lemma tickStats_eq_core (pr : Params) (cat : Catalog) (g : GridF) (n : ℕ)
    (prev : CityStats) :
    tickStats pr cat g n prev =
      tickCore pr prev
        (if powerRatio (aggregate cat g n).powerGen
              (aggregate cat g n).powerDrain < 1
         then (⌊(aggregate cat g n).dailyIncome *
                 powerRatio (aggregate cat g n).powerGen
                   (aggregate cat g n).powerDrain⌋ : ℚ)
         else (aggregate cat g n).dailyIncome)
        (if powerRatio (aggregate cat g n).powerGen
              (aggregate cat g n).powerDrain < 1
         then 0 else (aggregate cat g n).dailyPopGrowth)
        (if powerRatio (aggregate cat g n).powerGen
              (aggregate cat g n).powerDrain < 1
         then (⌊(aggregate cat g n).dailyScience *
                 powerRatio (aggregate cat g n).powerGen
                   (aggregate cat g n).powerDrain⌋ : ℚ)
         else (aggregate cat g n).dailyScience)
        (if powerRatio (aggregate cat g n).powerGen
              (aggregate cat g n).powerDrain < 1
         then (⌊(aggregate cat g n).bioFoodGen *
                 powerRatio (aggregate cat g n).powerGen
                   (aggregate cat g n).powerDrain⌋ : ℚ)
         else (aggregate cat g n).bioFoodGen)
        (if powerRatio (aggregate cat g n).powerGen
              (aggregate cat g n).powerDrain < 1
         then (aggregate cat g n).bioO2Gen *
                powerRatio (aggregate cat g n).powerGen
                  (aggregate cat g n).powerDrain
         else (aggregate cat g n).bioO2Gen)
        (aggregate cat g n).bioCO2Gen (aggregate cat g n).powerGen
        (aggregate cat g n).powerDrain
        ((aggregate cat g n).counts BuildingType.Residential)
        (aggregate cat g n).processed.length := rfl

/-- `tickStatsB` is `tickCoreB` applied to the power-penalised totals. -/
lemma tickStatsB_eq_coreB (cat : Catalog) (g : GridF) (n : ℕ)
    (prev : CityStatsB) :
    tickStatsB cat g n prev =
      tickCoreB prev
        (if powerRatio (aggregateB cat g n).powerGen
              (aggregateB cat g n).powerDrain < 1
         then (⌊(aggregateB cat g n).dailyIncome *
                 powerRatio (aggregateB cat g n).powerGen
                   (aggregateB cat g n).powerDrain⌋ : ℚ)
         else (aggregateB cat g n).dailyIncome)
        (if powerRatio (aggregateB cat g n).powerGen
              (aggregateB cat g n).powerDrain < 1
         then 0 else (aggregateB cat g n).dailyPopGrowth)
        (if powerRatio (aggregateB cat g n).powerGen
              (aggregateB cat g n).powerDrain < 1
         then (⌊(aggregateB cat g n).dailyScience *
                 powerRatio (aggregateB cat g n).powerGen
                   (aggregateB cat g n).powerDrain⌋ : ℚ)
         else (aggregateB cat g n).dailyScience)
        (aggregateB cat g n).powerGen (aggregateB cat g n).powerDrain
        ((aggregateB cat g n).counts BuildingType.Residential) := rfl

/-! ## Concrete fixtures for witnesses and counterexamples -/

/-- A catalog whose entries are all zero with 1×1 footprints. -/
def cat0 : Catalog := fun _ =>
  { cost := 0, name := "", popGen := 0, incomeGen := 0, powerGen := 0,
    scienceGen := 0, width := 1, height := 1, foodGen := 0, oxygenGen := 0,
    co2Gen := 0 }

/-- Zero per-capita consumption/production rates. -/
def pr0 : Params :=
  { popFoodConsumption := 0, popO2Consumption := 0, popCO2Production := 0 }

/-- A tile of the given kind at the given coordinates, flat, unowned. -/
def mkTile (x y : ℤ) (b : BuildingType) : TileData :=
  { x := x, y := y, buildingType := b }

/-- The all-empty flat grid. -/
def gEmpty : GridF := fun x y => mkTile x y BuildingType.None

/-- A grid with two residential modules at `(0,0)` and `(1,0)`. -/
def gRes2 : GridF := fun x y =>
  if (x = 0 ∨ x = 1) ∧ y = 0 then mkTile x y BuildingType.Residential
  else mkTile x y BuildingType.None

/-- A grid with one residential module at `(0,0)`. -/
def gRes1 : GridF := fun x y =>
  if x = 0 ∧ y = 0 then mkTile x y BuildingType.Residential
  else mkTile x y BuildingType.None

/-- Extended stats: 100 colonists, oxygen already down at 3. -/
def prevLowO2 : CityStats :=
  { money := 0, population := 100, day := 1, science := 0,
    powerSupply := 0, powerDemand := 0, oxygen := 3, co2 := 400, food := 100 }

/-- Extended stats: 10 colonists, healthy atmosphere. -/
def prevPop10 : CityStats :=
  { money := 0, population := 10, day := 1, science := 0,
    powerSupply := 0, powerDemand := 0, oxygen := 100, co2 := 400,
    food := 100 }

/-- Basic stats: 10 colonists. -/
def prevBPop10 : CityStatsB :=
  { money := 0, population := 10, day := 1, science := 0,
    powerSupply := 0, powerDemand := 0 }

/-- Basic stats: no colonists yet. -/
def prevBPop0 : CityStatsB :=
  { money := 0, population := 0, day := 1, science := 0,
    powerSupply := 0, powerDemand := 0 }

/-- Catalog for the power-penalty scenario: solar panels produce 50 power,
comms hubs drain 100 and yield 10 income; everything else zero. -/
def catPower : Catalog := fun b =>
  match b with
  | BuildingType.SolarPanel =>
    { cost := 0, name := "", popGen := 0, incomeGen := 0, powerGen := 50,
      scienceGen := 0, width := 1, height := 1, foodGen := 0, oxygenGen := 0,
      co2Gen := 0 }
  | BuildingType.Commercial =>
    { cost := 300, name := "Comms Hub", popGen := 0, incomeGen := 10,
      powerGen := -100, scienceGen := 0, width := 1, height := 1,
      foodGen := 0, oxygenGen := 0, co2Gen := 0 }
  | _ =>
    { cost := 0, name := "", popGen := 0, incomeGen := 0, powerGen := 0,
      scienceGen := 0, width := 1, height := 1, foodGen := 0, oxygenGen := 0,
      co2Gen := 0 }

/-- A grid with one solar panel at `(0,0)` and one comms hub at `(1,0)`. -/
def gPower : GridF := fun x y =>
  if x = 0 ∧ y = 0 then mkTile x y BuildingType.SolarPanel
  else if x = 1 ∧ y = 0 then mkTile x y BuildingType.Commercial
  else mkTile x y BuildingType.None

/-! ## Claims -/

/-- C1: the spec says the suffocation contribution is
`floor(pop × 0.05)` when the new oxygen is below 10 but `floor(pop × 0.2)`
when it is below 5.  In the source the `else if (newO2 < 5)` branch is
unreachable (any value `< 5` already satisfies `< 10`), so the code adds
`floor(100 × 0.05) = 5` deaths at oxygen 3 instead of the claimed
`floor(100 × 0.2) = 20`; a full tick at that state ends with population
95, not 80. -/
theorem c1_suffocation_dead_branch :
    deathToll 0 3 400 100 = 5 ∧
    (tickStats pr0 cat0 gRes2 2 prevLowO2).population = 95 ∧
    ((⌊(100 : ℚ) * (0.2 : ℚ)⌋ : ℚ) = 20) ∧
    (5 : ℚ) ≠ 20 ∧ (95 : ℚ) ≠ 100 - 20 := by
  refine ⟨by norm_num [deathToll], ?_, by norm_num, by norm_num, by norm_num⟩
  norm_num +decide [tickStats, tickCore, aggregate, tilesOf, List.range_succ,
    aggStep, aggInit, rootId, tileAt, gRes2, prevLowO2, pr0, cat0, powerRatio,
    deathToll, mkTile]

/-- C2: the power ratio is `min(1, powerGen/powerDrain)` for positive
drain and 1 otherwise, hence always in `[0,1]`; and a low-power tick
applies the penalised totals — floored scaled income, science and
(extended) food generation, zero population growth, and (extended)
unfloored scaled oxygen generation — to the rest of the tick.  The first
half covers the extended variant, the second the basic variant. -/
theorem c2_power_penalty (pr : Params) (cat : Catalog) (g : GridF) (n : ℕ)
    (prev : CityStats) (a : AggSt) (r : ℚ) (aB : AggStB) (rB : ℚ)
    (ha : a = aggregate cat g n)
    (hr : r = powerRatio a.powerGen a.powerDrain)
    (haB : aB = aggregateB cat g n)
    (hrB : rB = powerRatio aB.powerGen aB.powerDrain) :
    ((0 ≤ r ∧ r ≤ 1) ∧
    (a.powerDrain = 0 → r = 1) ∧
    (r < 1 →
      tickStats pr cat g n prev =
        tickCore pr prev (⌊a.dailyIncome * r⌋ : ℚ) 0
          (⌊a.dailyScience * r⌋ : ℚ) (⌊a.bioFoodGen * r⌋ : ℚ)
          (a.bioO2Gen * r) a.bioCO2Gen a.powerGen a.powerDrain
          (a.counts BuildingType.Residential) a.processed.length ∧
      (tickStats pr cat g n prev).money = prev.money + ⌊a.dailyIncome * r⌋ ∧
      (tickStats pr cat g n prev).science =
        prev.science + ⌊a.dailyScience * r⌋)) ∧
    ((0 ≤ rB ∧ rB ≤ 1) ∧
    (aB.powerDrain = 0 → rB = 1) ∧
    (∀ (prevB : CityStatsB), rB < 1 →
      tickStatsB cat g n prevB =
        tickCoreB prevB (⌊aB.dailyIncome * rB⌋ : ℚ) 0
          (⌊aB.dailyScience * rB⌋ : ℚ) aB.powerGen aB.powerDrain
          (aB.counts BuildingType.Residential) ∧
      (tickStatsB cat g n prevB).money =
        prevB.money + ⌊aB.dailyIncome * rB⌋ ∧
      (tickStatsB cat g n prevB).science =
        prevB.science + ⌊aB.dailyScience * rB⌋)) := by
  subst ha hr haB hrB
  constructor
  case right =>
    refine ⟨⟨powerRatio_nonneg _ _ (aggregateB_powerGen_nonneg cat g n),
             powerRatio_le_one _ _⟩, ?_, ?_⟩
    · intro h
      rw [h]
      exact powerRatio_drain_zero _
    · intro prevB hlow
      have heq : tickStatsB cat g n prevB =
          tickCoreB prevB
            (⌊(aggregateB cat g n).dailyIncome *
                powerRatio (aggregateB cat g n).powerGen
                  (aggregateB cat g n).powerDrain⌋ : ℚ) 0
            (⌊(aggregateB cat g n).dailyScience *
                powerRatio (aggregateB cat g n).powerGen
                  (aggregateB cat g n).powerDrain⌋ : ℚ)
            (aggregateB cat g n).powerGen (aggregateB cat g n).powerDrain
            ((aggregateB cat g n).counts BuildingType.Residential) := by
        rw [tickStatsB_eq_coreB]
        rw [if_pos hlow, if_pos hlow, if_pos hlow]
      exact ⟨heq, by rw [heq]; rfl, by rw [heq]; rfl⟩
  case left =>
  refine ⟨⟨powerRatio_nonneg _ _ (aggregate_powerGen_nonneg cat g n),
           powerRatio_le_one _ _⟩, ?_, ?_⟩
  · intro h
    rw [h]
    exact powerRatio_drain_zero _
  · intro hlow
    have heq : tickStats pr cat g n prev =
        tickCore pr prev
          (⌊(aggregate cat g n).dailyIncome *
              powerRatio (aggregate cat g n).powerGen
                (aggregate cat g n).powerDrain⌋ : ℚ) 0
          (⌊(aggregate cat g n).dailyScience *
              powerRatio (aggregate cat g n).powerGen
                (aggregate cat g n).powerDrain⌋ : ℚ)
          (⌊(aggregate cat g n).bioFoodGen *
              powerRatio (aggregate cat g n).powerGen
                (aggregate cat g n).powerDrain⌋ : ℚ)
          ((aggregate cat g n).bioO2Gen *
              powerRatio (aggregate cat g n).powerGen
                (aggregate cat g n).powerDrain)
          (aggregate cat g n).bioCO2Gen (aggregate cat g n).powerGen
          (aggregate cat g n).powerDrain
          ((aggregate cat g n).counts BuildingType.Residential)
          (aggregate cat g n).processed.length := by
      rw [tickStats_eq_core]
      rw [if_pos hlow, if_pos hlow, if_pos hlow, if_pos hlow, if_pos hlow]
    exact ⟨heq, by rw [heq]; rfl, by rw [heq]; rfl⟩

/-- Witness for C2, realising the spec scenario: supply 50 against drain
100 gives ratio 1/2, and the tick credits `floor(10 × 1/2) = 5` income. -/
theorem c2_power_penalty_witness :
    powerRatio (aggregate catPower gPower 2).powerGen
        (aggregate catPower gPower 2).powerDrain = 1 / 2 ∧
    (tickStats pr0 catPower gPower 2 initialStats).money =
      initialStats.money + 5 := by
  have hratio : powerRatio (aggregate catPower gPower 2).powerGen
      (aggregate catPower gPower 2).powerDrain = 1 / 2 := by
    norm_num +decide [aggregate, tilesOf, List.range_succ, aggStep, aggInit,
      rootId, tileAt, gPower, catPower, powerRatio, mkTile]
  have h := (c2_power_penalty pr0 catPower gPower 2 initialStats
    (aggregate catPower gPower 2)
    (powerRatio (aggregate catPower gPower 2).powerGen
      (aggregate catPower gPower 2).powerDrain)
    (aggregateB catPower gPower 2)
    (powerRatio (aggregateB catPower gPower 2).powerGen
      (aggregateB catPower gPower 2).powerDrain)
    rfl rfl rfl rfl).1.2.2
    (by rw [hratio]; norm_num)
  refine ⟨hratio, ?_⟩
  rw [h.2.1, hratio]
  have hinc : (aggregate catPower gPower 2).dailyIncome = 10 := by
    norm_num +decide [aggregate, tilesOf, List.range_succ, aggStep, aggInit,
      rootId, tileAt, gPower, catPower, mkTile]
  rw [hinc]
  norm_num

/-- C5: across arbitrary tick sequences of the extended variant, after
every tick oxygen lies in `[0,100]` and CO2 never drops below 300 (the
tick's final clamps guarantee it from any prior state). -/
theorem c5_atmosphere_invariant (pr : Params) (cat : Catalog)
    (gs : ℕ → GridF) (n k : ℕ) :
    0 ≤ (runTicks pr cat gs n (k + 1)).oxygen ∧
    (runTicks pr cat gs n (k + 1)).oxygen ≤ 100 ∧
    300 ≤ (runTicks pr cat gs n (k + 1)).co2 := by
  have h : runTicks pr cat gs n (k + 1) =
      tickStats pr cat (gs k) n (runTicks pr cat gs n k) := rfl
  rw [h, tickStats_eq_core]
  exact tickCore_atmosphere_bounds pr _ _ _ _ _ _ _ _ _ _ _

/-- One basic aggregation step keeps the accumulated population growth
nonnegative when every catalog entry's `popGen` is nonnegative. -/
lemma aggStepB_popGrowth_nonneg (cat : Catalog) (st : AggStB) (t : TileData)
    (hcat : ∀ b, 0 ≤ (cat b).popGen) (h : 0 ≤ st.dailyPopGrowth) :
    0 ≤ (aggStepB cat st t).dailyPopGrowth := by
  simp only [aggStepB]
  split
  · exact h
  · split
    · exact h
    · dsimp only
      have := hcat t.buildingType
      linarith

/-- Population growth stays nonnegative through the basic aggregation
fold when every catalog entry's `popGen` is nonnegative. -/
lemma foldl_aggStepB_popGrowth_nonneg (cat : Catalog)
    (hcat : ∀ b, 0 ≤ (cat b).popGen) :
    ∀ (l : List TileData) (st : AggStB), 0 ≤ st.dailyPopGrowth →
      0 ≤ (l.foldl (aggStepB cat) st).dailyPopGrowth
  | [], _, h => h
  | t :: l, st, h =>
    foldl_aggStepB_popGrowth_nonneg cat hcat l (aggStepB cat st t)
      (aggStepB_popGrowth_nonneg cat st t hcat h)

/-- The basic aggregated population growth is nonnegative when every
catalog entry's `popGen` is. -/
lemma aggregateB_popGrowth_nonneg (cat : Catalog) (g : GridF) (n : ℕ)
    (hcat : ∀ b, 0 ≤ (cat b).popGen) :
    0 ≤ (aggregateB cat g n).dailyPopGrowth :=
  foldl_aggStepB_popGrowth_nonneg cat hcat (tilesOf g n) aggInitB le_rfl

/-- With at least one residential root, the basic tick's population stays
within `[0, resCount × 50]` given a nonnegative prior population and
growth. -/
lemma tickCoreB_population_bounds (prev : CityStatsB)
    (di dg ds pg pd : ℚ) (rc : ℕ) (hprev : 0 ≤ prev.population)
    (hdg : 0 ≤ dg) (hrc : 1 ≤ rc) :
    0 ≤ (tickCoreB prev di dg ds pg pd rc).population ∧
    (tickCoreB prev di dg ds pg pd rc).population ≤ (rc : ℚ) * 50 := by
  simp only [tickCoreB]
  rw [if_neg (fun h => by omega)]
  constructor
  · split
    · positivity
    · linarith
  · split
    · exact le_refl _
    · linarith [(by assumption : ¬prev.population + dg > (rc : ℚ) * 50)]

/-- With zero residential roots and positive prior population, the basic
tick's population is exactly `max 0 (prev − 5)` (the evacuation path). -/
lemma tickCoreB_population_evac (prev : CityStatsB) (di dg ds pg pd : ℚ)
    (h2 : prev.population > 0) :
    (tickCoreB prev di dg ds pg pd 0).population =
      max 0 (prev.population - 5) := by
  simp only [tickCoreB]
  rw [if_pos ⟨by trivial, h2⟩]

/-- C3: the claimed bound `0 ≤ population ≤ resCount × 50` fails in the
basic variant: with zero residential buildings and prior population 10, the
evacuation path leaves population 5, which exceeds `0 × 50 = 0`. -/
theorem c3_population_cap_cex :
    (aggregateB cat0 gEmpty 1).counts BuildingType.Residential = 0 ∧
    (tickStatsB cat0 gEmpty 1 prevBPop10).population = 5 ∧
    ¬((tickStatsB cat0 gEmpty 1 prevBPop10).population ≤
        (((aggregateB cat0 gEmpty 1).counts BuildingType.Residential : ℚ) *
          50)) := by
  refine ⟨by norm_num +decide [aggregateB, tilesOf, List.range_succ, aggStepB,
    aggInitB, rootId, tileAt, gEmpty, cat0, mkTile], ?_, ?_⟩ <;>
  norm_num +decide [tickStatsB, tickCoreB, aggregateB, tilesOf,
    List.range_succ, aggStepB, aggInitB, rootId, tileAt, gEmpty, prevBPop10,
    cat0, powerRatio, mkTile]

/-- C3 (amended): in the extended variant the bound
`0 ≤ population ≤ resCount × 50` holds after every tick unconditionally;
in the basic variant it holds whenever at least one residential root was
counted (given a nonnegative prior population and a catalog with
nonnegative `popGen`) — with zero residential roots the basic evacuation
path can leave a positive population above the zero cap. -/
theorem c3_population_cap_amended :
    (∀ (pr : Params) (cat : Catalog) (g : GridF) (n : ℕ) (prev : CityStats),
      0 ≤ (tickStats pr cat g n prev).population ∧
      (tickStats pr cat g n prev).population ≤
        (((aggregate cat g n).counts BuildingType.Residential : ℚ) * 50)) ∧
    (∀ (cat : Catalog) (g : GridF) (n : ℕ) (prev : CityStatsB),
      0 ≤ prev.population →
      1 ≤ (aggregateB cat g n).counts BuildingType.Residential →
      (∀ b, 0 ≤ (cat b).popGen) →
      0 ≤ (tickStatsB cat g n prev).population ∧
      (tickStatsB cat g n prev).population ≤
        (((aggregateB cat g n).counts BuildingType.Residential : ℚ) * 50)) := by
  constructor
  · intro pr cat g n prev
    rw [tickStats_eq_core]
    exact ⟨tickCore_population_nonneg _ _ _ _ _ _ _ _ _ _ _ _,
           tickCore_population_le _ _ _ _ _ _ _ _ _ _ _ _⟩
  · intro cat g n prev hprev hrc hcat
    rw [tickStatsB_eq_coreB]
    refine tickCoreB_population_bounds _ _ _ _ _ _ _ hprev ?_ hrc
    split
    · exact le_refl 0
    · exact aggregateB_popGrowth_nonneg cat g n hcat

/-- Witness for C3 (amended): one residential module on a 1×1 map keeps
the basic tick's population inside `[0, 50]`. -/
theorem c3_population_cap_amended_witness :
    (0 ≤ prevBPop0.population ∧
     1 ≤ (aggregateB cat0 gRes1 1).counts BuildingType.Residential) ∧
    (0 ≤ (tickStatsB cat0 gRes1 1 prevBPop0).population ∧
     (tickStatsB cat0 gRes1 1 prevBPop0).population ≤
       (((aggregateB cat0 gRes1 1).counts BuildingType.Residential : ℚ) *
         50)) := by
  have hc : (aggregateB cat0 gRes1 1).counts BuildingType.Residential = 1 := by
    norm_num +decide [aggregateB, tilesOf, List.range_succ, aggStepB,
      aggInitB, rootId, tileAt, gRes1, cat0, mkTile]
  exact ⟨⟨by norm_num [prevBPop0], by rw [hc]⟩,
    c3_population_cap_amended.2 cat0 gRes1 1 prevBPop0
      (by norm_num [prevBPop0]) (by rw [hc])
      (fun b => by norm_num [cat0])⟩

/-- C4: the fixed flat evacuation decrement exists only in the basic
variant.  At population 10 with zero residential buildings, the basic tick
leaves 5 colonists (a flat −5), but the extended tick clamps the
population to the zero housing cap, leaving 0 — not a decrease by the
flat decrement. -/
theorem c4_evacuation_cex :
    (tickStats pr0 cat0 gEmpty 1 prevPop10).population = 0 ∧
    (tickStatsB cat0 gEmpty 1 prevBPop10).population = 5 ∧
    (0 : ℚ) ≠ 10 - 5 := by
  refine ⟨?_, ?_, by norm_num⟩ <;>
  norm_num +decide [tickStats, tickCore, tickStatsB, tickCoreB, aggregate,
    aggregateB, tilesOf, List.range_succ, aggStep, aggStepB, aggInit,
    aggInitB, rootId, tileAt, gEmpty, prevPop10, prevBPop10, pr0, cat0,
    powerRatio, deathToll, mkTile]

/-- C4 (amended): with zero residential roots the basic tick decrements a
positive population by the flat evacuation step
(`population = max 0 (prev − 5)`), while the extended tick has no
evacuation path — its zero housing cap clamps the population to 0 in one
tick. -/
theorem c4_evacuation_amended :
    (∀ (cat : Catalog) (g : GridF) (n : ℕ) (prev : CityStatsB),
      (aggregateB cat g n).counts BuildingType.Residential = 0 →
      prev.population > 0 →
      (tickStatsB cat g n prev).population =
        max 0 (prev.population - 5)) ∧
    (∀ (pr : Params) (cat : Catalog) (g : GridF) (n : ℕ)
       (prev : CityStats),
      (aggregate cat g n).counts BuildingType.Residential = 0 →
      (tickStats pr cat g n prev).population = 0) := by
  constructor
  · intro cat g n prev h1 h2
    rw [tickStatsB_eq_coreB, h1]
    exact tickCoreB_population_evac _ _ _ _ _ _ h2
  · intro pr cat g n prev h1
    rw [tickStats_eq_core, h1]
    exact tickCore_population_resZero _ _ _ _ _ _ _ _ _ _ _

/-- Witness for C4 (amended): on the empty grid, prior population 10 gives
5 after a basic tick and 0 after an extended tick. -/
theorem c4_evacuation_amended_witness :
    ((aggregateB cat0 gEmpty 1).counts BuildingType.Residential = 0 ∧
     prevBPop10.population > 0 ∧
     (aggregate cat0 gEmpty 1).counts BuildingType.Residential = 0) ∧
    (tickStatsB cat0 gEmpty 1 prevBPop10).population =
      max 0 (prevBPop10.population - 5) ∧
    (tickStats pr0 cat0 gEmpty 1 prevPop10).population = 0 := by
  have h1 : (aggregateB cat0 gEmpty 1).counts BuildingType.Residential = 0 := by
    norm_num +decide [aggregateB, tilesOf, List.range_succ, aggStepB,
      aggInitB, rootId, tileAt, gEmpty, cat0, mkTile]
  have h2 : (aggregate cat0 gEmpty 1).counts BuildingType.Residential = 0 := by
    norm_num +decide [aggregate, tilesOf, List.range_succ, aggStep, aggInit,
      rootId, tileAt, gEmpty, cat0, mkTile]
  have h3 : prevBPop10.population > 0 := by norm_num [prevBPop10]
  exact ⟨⟨h1, h3, h2⟩,
    c4_evacuation_amended.1 cat0 gEmpty 1 prevBPop10 h1 h3,
    c4_evacuation_amended.2 pr0 cat0 gEmpty 1 prevPop10 h2⟩

/-- C6: with the AI enabled, an active not-yet-completed goal is marked
completed by the tick exactly when the relevant new stat (or per-kind
count) reaches its target with a `≥` comparison; when the threshold is not
met the goal is returned unchanged; the tick's stats are computed
independently of the goal (completion credits no money); and the explicit
claim action credits the reward exactly once and clears the goal, so a
repeated claim credits nothing further. -/
theorem c6_goal_completion (goalV : AIGoal) (ns : CityStats)
    (counts : BuildingType → ℕ) (money : ℚ)
    (h : goalV.completed = false) :
    (checkGoal true (some goalV) ns counts =
        some { goalV with completed := true } ↔
      ((goalV.targetType = TargetType.money ∧
          ns.money ≥ goalV.targetValue) ∨
       (goalV.targetType = TargetType.population ∧
          ns.population ≥ goalV.targetValue) ∨
       (goalV.targetType = TargetType.science ∧
          ns.science ≥ goalV.targetValue) ∨
       (goalV.targetType = TargetType.building_count ∧
          ∃ b, goalV.buildingType = some b ∧
            (counts b : ℚ) ≥ goalV.targetValue))) ∧
    (checkGoal true (some goalV) ns counts =
        some { goalV with completed := true } ∨
     checkGoal true (some goalV) ns counts = some goalV) ∧
    (∀ (pr : Params) (cat : Catalog) (g : GridF) (n : ℕ)
       (prev : CityStats) (ai : Bool) (goalX : Option AIGoal),
      (tickFull pr cat g n prev ai goalX).1 = tickStats pr cat g n prev) ∧
    (handleClaimReward (some { goalV with completed := true }) money =
      (none, money + goalV.reward)) ∧
    (handleClaimReward
        (handleClaimReward (some { goalV with completed := true }) money).1
        (handleClaimReward (some { goalV with completed := true }) money).2 =
      (none, money + goalV.reward)) := by
  have hne : some { goalV with completed := true } ≠ some goalV := by
    intro heq
    have h2 := congrArg (fun o => (o.getD goalV).completed) heq
    simp only [Option.getD_some] at h2
    rw [h] at h2
    exact Bool.true_eq_false.mp h2
  have hmet : goalIsMet goalV ns counts = true ↔
      ((goalV.targetType = TargetType.money ∧
          ns.money ≥ goalV.targetValue) ∨
       (goalV.targetType = TargetType.population ∧
          ns.population ≥ goalV.targetValue) ∨
       (goalV.targetType = TargetType.science ∧
          ns.science ≥ goalV.targetValue) ∨
       (goalV.targetType = TargetType.building_count ∧
          ∃ b, goalV.buildingType = some b ∧
            (counts b : ℚ) ≥ goalV.targetValue)) := by
    unfold goalIsMet
    cases hb : goalV.buildingType with
    | none => simp [hb]; tauto
    | some b => simp [hb]; tauto
  have hact : checkGoal true (some goalV) ns counts =
      if goalIsMet goalV ns counts
      then some { goalV with completed := true } else some goalV := by
    simp [checkGoal, h]
  constructor
  · rw [hact]
    constructor
    · intro heq
      cases hm : goalIsMet goalV ns counts with
      | true => exact hmet.mp hm
      | false =>
        rw [hm] at heq
        simp only [Bool.false_eq_true, if_false] at heq
        exact absurd heq.symm hne
    · intro hcond
      rw [if_pos (hmet.mpr hcond)]
  refine ⟨?_, fun pr cat g n prev ai goalX => rfl, ?_, ?_⟩
  · rw [hact]
    split
    · exact Or.inl rfl
    · exact Or.inr rfl
  · simp [handleClaimReward]
  · simp [handleClaimReward]

/-- Witness for C6: a money goal with target 50 is completed on the tick
whose new money is exactly 50, and claiming its 10-credit reward once
credits 10 and clears the goal. -/
theorem c6_goal_completion_witness :
    (let goalV : AIGoal :=
      { description := "", targetType := TargetType.money,
        targetValue := 50, buildingType := none, reward := 10,
        completed := false }
     let ns : CityStats :=
      { money := 50, population := 0, day := 2, science := 0,
        powerSupply := 0, powerDemand := 0, oxygen := 100, co2 := 400,
        food := 100 }
     checkGoal true (some goalV) ns (fun _ => 0) =
        some { goalV with completed := true } ∧
     handleClaimReward (some { goalV with completed := true }) 0 =
        (none, 0 + goalV.reward)) := by
  intro goalV ns
  have h := c6_goal_completion goalV ns (fun _ => 0) 0 rfl
  exact ⟨h.1.mpr (Or.inl ⟨rfl, by norm_num [ns, goalV]⟩), h.2.2.2.1⟩

/-! ## C9: research re-purchase -/

/-- A one-node tech tree for the research counterexample. -/
def techT1 : TechNode :=
  { id := "t1", name := "T1", description := "", cost := 30, unlocks := [],
    prerequisites := [] }

/-- C9: re-invoking `handleUnlockTech` with an already-unlocked id is NOT
a no-op: with science 100, tech cost 30 and `"t1"` already unlocked, the
call debits science down to 70 and appends a duplicate id. -/
theorem c9_unlock_cex :
    (handleUnlockTech [techT1] "t1" 100 ["t1"]).science = 70 ∧
    (handleUnlockTech [techT1] "t1" 100 ["t1"]).unlockedTechs =
      ["t1", "t1"] ∧
    (70 : ℚ) ≠ 100 := by
  refine ⟨?_, ?_, by norm_num⟩ <;>
  norm_num [handleUnlockTech, techT1, List.find?]

/-- C9 (amended): `handleUnlockTech` has no duplicate-purchase guard.
Re-invoking it with an id that is already in the unlocked list, when the
looked-up node is affordable, debits science again and appends the id a
second time (it appears at least twice afterwards); idempotence would have
to come from the UI not offering unlocked nodes again. -/
theorem c9_unlock_amended (tree : List TechNode) (techId : String)
    (science : ℚ) (unlocked : List String) (tech : TechNode)
    (hfind : tree.find? (fun t => t.id = techId) = some tech)
    (hcost : science ≥ tech.cost) (hmem : techId ∈ unlocked) :
    (handleUnlockTech tree techId science unlocked).science =
      science - tech.cost ∧
    (handleUnlockTech tree techId science unlocked).unlockedTechs =
      unlocked ++ [techId] ∧
    2 ≤ ((handleUnlockTech tree techId science unlocked).unlockedTechs.count
          techId) := by
  refine ⟨?_, ?_, ?_⟩ <;>
    simp [handleUnlockTech, hfind, hcost, List.count_append, hmem]

/-- Witness for C9 (amended): the concrete double-debit run. -/
theorem c9_unlock_amended_witness :
    (([techT1].find? (fun t => t.id = "t1") = some techT1) ∧
     (100 : ℚ) ≥ techT1.cost ∧ "t1" ∈ ["t1"]) ∧
    ((handleUnlockTech [techT1] "t1" 100 ["t1"]).science =
        100 - techT1.cost ∧
     (handleUnlockTech [techT1] "t1" 100 ["t1"]).unlockedTechs =
        ["t1"] ++ ["t1"] ∧
     2 ≤ ((handleUnlockTech [techT1] "t1" 100 ["t1"]).unlockedTechs.count
           "t1")) := by
  have h1 : [techT1].find? (fun t => t.id = "t1") = some techT1 := by
    norm_num [techT1, List.find?]
  have h2 : (100 : ℚ) ≥ techT1.cost := by norm_num [techT1]
  have h3 : "t1" ∈ ["t1"] := List.mem_singleton.mpr rfl
  exact ⟨⟨h1, h2, h3⟩, c9_unlock_amended [techT1] "t1" 100 ["t1"] techT1
    h1 h2 h3⟩

/-- C8: every build or demolish request rejected for insufficient funds,
an out-of-bounds footprint, occupied or uneven terrain, or a
not-yet-unlocked kind leaves the grid and the stats completely unchanged
and emits a negative notice. -/
theorem c8_rejections_no_mutation (cat : Catalog) (mapSize : ℤ)
    (unlocked : List BuildingType) (tool : BuildingType) (variant : ℕ)
    (g : GridF) (stats : CityStats) (x y : ℤ)
    (hin : ¬(x < 0 ∨ x ≥ mapSize ∨ y < 0 ∨ y ≥ mapSize))
    (hrej :
      (tool = BuildingType.None ∧
        (tileAt g x y).buildingType ≠ BuildingType.None ∧
        ¬stats.money ≥ 50) ∨
      (tool ≠ BuildingType.None ∧ tool ∉ unlocked) ∨
      (tool ≠ BuildingType.None ∧ tool ∈ unlocked ∧
        (x + (cat tool).width > mapSize ∨
         y + (cat tool).height > mapSize)) ∨
      (tool ≠ BuildingType.None ∧ tool ∈ unlocked ∧
        ¬(x + (cat tool).width > mapSize ∨
          y + (cat tool).height > mapSize) ∧
        occupiedOrUneven g tool x y (cat tool).width (cat tool).height =
          true) ∨
      (tool ≠ BuildingType.None ∧ tool ∈ unlocked ∧
        ¬(x + (cat tool).width > mapSize ∨
          y + (cat tool).height > mapSize) ∧
        occupiedOrUneven g tool x y (cat tool).width (cat tool).height =
          false ∧
        ¬stats.money ≥ (cat tool).cost)) :
    (handleTileClick cat mapSize unlocked tool true false variant g stats
        x y).grid = g ∧
    (handleTileClick cat mapSize unlocked tool true false variant g stats
        x y).stats = stats ∧
    ∃ item, item ∈ (handleTileClick cat mapSize unlocked tool true false
        variant g stats x y).news ∧ item.type = NewsType.negative := by
  rcases hrej with ⟨h1, h2, h3⟩ | ⟨h1, h2⟩ | ⟨h1, h2, h3⟩ |
    ⟨h1, h2, h3, h4⟩ | ⟨h1, h2, h3, h4, h5⟩
  · refine ⟨?_, ?_, ?_⟩ <;>
      simp [handleTileClick, hin, h1, h2, h3, NewsType.negative]
  · refine ⟨?_, ?_, ?_⟩ <;>
      simp [handleTileClick, hin, h1, h2, NewsType.negative]
  · refine ⟨?_, ?_, ?_⟩ <;>
      simp [handleTileClick, hin, h1, h2, h3, NewsType.negative]
  · refine ⟨?_, ?_, ?_⟩ <;>
      simp [handleTileClick, hin, h1, h2, h3, h4, NewsType.negative]
  · refine ⟨?_, ?_, ?_⟩ <;>
      simp [handleTileClick, hin, h1, h2, h3, h4, h5, NewsType.negative]

/-- Witness for C8: placing a comms hub with only 1 credit is rejected
with a negative notice and no state change. -/
theorem c8_rejections_no_mutation_witness :
    (let poorStats : CityStats :=
      { money := 1, population := 0, day := 1, science := 0,
        powerSupply := 0, powerDemand := 0, oxygen := 100, co2 := 400,
        food := 100 }
     (handleTileClick catPower 4 [BuildingType.Commercial]
        BuildingType.Commercial true false 0 gEmpty poorStats 0 0).grid =
        gEmpty ∧
     (handleTileClick catPower 4 [BuildingType.Commercial]
        BuildingType.Commercial true false 0 gEmpty poorStats 0 0).stats =
        poorStats ∧
     ∃ item, item ∈ (handleTileClick catPower 4 [BuildingType.Commercial]
        BuildingType.Commercial true false 0 gEmpty poorStats 0 0).news ∧
       item.type = NewsType.negative) := by
  intro poorStats
  refine c8_rejections_no_mutation catPower 4 [BuildingType.Commercial]
    BuildingType.Commercial 0 gEmpty poorStats 0 0 (by norm_num)
    (Or.inr (Or.inr (Or.inr (Or.inr
      ⟨by decide, List.mem_singleton.mpr rfl, by norm_num [catPower], ?_,
       by norm_num [poorStats, catPower]⟩))))
  norm_num +decide [occupiedOrUneven, rectCells, List.range_succ, tileAt,
    gEmpty, catPower, mkTile]

/-- Membership in the footprint cell list is exactly the coordinate
rectangle. -/
lemma mem_rectCells (x y : ℤ) (w h : ℕ) (px py : ℤ) :
    (px, py) ∈ rectCells x y w h ↔
      (x ≤ px ∧ px < x + w ∧ y ≤ py ∧ py < y + h) := by
  constructor
  · intro hp
    obtain ⟨i, hi, hp2⟩ := List.mem_flatMap.mp hp
    rw [List.mem_range] at hi
    obtain ⟨j, hj, heq⟩ := List.mem_map.mp hp2
    rw [List.mem_range] at hj
    have h1 : x + (i : ℤ) = px := congrArg Prod.fst heq
    have h2 : y + (j : ℤ) = py := congrArg Prod.snd heq
    omega
  · rintro ⟨h1, h2, h3, h4⟩
    refine List.mem_flatMap.mpr
      ⟨(px - x).toNat, List.mem_range.mpr (by omega), ?_⟩
    refine List.mem_map.mpr
      ⟨(py - y).toNat, List.mem_range.mpr (by omega), ?_⟩
    have e1 : x + ((px - x).toNat : ℤ) = px := by omega
    have e2 : y + ((py - y).toNat : ℤ) = py := by omega
    rw [e1, e2]

/-- Pointwise behaviour of the guarded clear loop over any cell list: a
cell is cleared exactly when it is in the list and inside the map bounds
(`clearTile` is idempotent, so duplicate writes are harmless). -/
lemma clearLoop_char (n : ℤ) :
    ∀ (cells : List (ℤ × ℤ)) (g : GridF) (px py : ℤ),
      (cells.foldl
        (fun acc c => if c.2 < n ∧ c.1 < n
                      then updateCell acc c clearTile else acc) g) px py =
        if (px, py) ∈ cells ∧ py < n ∧ px < n
        then clearTile (g px py) else g px py := by
  intro cells
  induction cells with
  | nil => intro g px py; simp
  | cons c rest ih =>
    intro g px py
    rw [List.foldl_cons, ih]
    by_cases hc : (px, py) = c
    · have hc1 : px = c.1 := by rw [← hc]
      have hc2 : py = c.2 := by rw [← hc]
      by_cases hP : c.2 < n ∧ c.1 < n
      · rw [if_pos hP]
        have hup : updateCell g c clearTile px py = clearTile (g px py) := by
          unfold updateCell
          rw [if_pos ⟨hc1, hc2⟩]
        by_cases hmem : (px, py) ∈ rest
        · rw [if_pos ⟨hmem, by omega⟩, if_pos ⟨List.mem_cons_of_mem c hmem,
            by omega⟩, hup]
          rfl
        · rw [if_neg (fun hh => hmem hh.1),
            if_pos ⟨by rw [hc]; exact List.mem_cons_self c rest, by omega⟩,
            hup]
      · rw [if_neg hP]
        have hnot : ¬(py < n ∧ px < n) := by
          rw [hc1, hc2]
          intro hh
          exact hP ⟨hh.1, hh.2⟩
        rw [if_neg (fun hh => hnot hh.2), if_neg (fun hh => hnot hh.2)]
    · have hne : ¬(px = c.1 ∧ py = c.2) := by
        intro hh
        exact hc (Prod.ext hh.1 hh.2)
      have hstep : (if c.2 < n ∧ c.1 < n
          then updateCell g c clearTile else g) px py = g px py := by
        split
        · unfold updateCell
          rw [if_neg hne]
        · rfl
      rw [hstep]
      have hmem : (px, py) ∈ c :: rest ↔ (px, py) ∈ rest := by
        rw [List.mem_cons]
        exact ⟨fun hh => hh.resolve_left hc, Or.inr⟩
      by_cases hmem2 : (px, py) ∈ rest
      · by_cases hbnd : py < n ∧ px < n
        · rw [if_pos ⟨hmem2, hbnd⟩, if_pos ⟨hmem.mpr hmem2, hbnd⟩]
        · rw [if_neg (fun hh => hbnd hh.2), if_neg (fun hh => hbnd hh.2)]
      · rw [if_neg (fun hh => hmem2 hh.1),
          if_neg (fun hh => hmem2 (hmem.mp hh.1))]

/-- C10: the demolition clear loop touches only cells with
`rootX+i < mapSize` and `rootY+j < mapSize`: the tile at `(px, py)` after
the loop is the original tile with kind reset to `None` and owner/variant
cleared exactly when it is covered by the footprint and inside the map
bounds, and is completely untouched otherwise (in particular nothing at or
beyond the map edge is ever written). -/
theorem c10_demolition_clear_loop (g : GridF) (rootX rootY : ℤ)
    (w h : ℕ) (mapSize px py : ℤ) :
    clearFootprint g rootX rootY w h mapSize px py =
      if (rootX ≤ px ∧ px < rootX + w ∧ rootY ≤ py ∧ py < rootY + h) ∧
          py < mapSize ∧ px < mapSize
      then { g px py with
               buildingType := BuildingType.None, ownerX := none,
               ownerY := none, variant := none }
      else g px py := by
  unfold clearFootprint
  rw [clearLoop_char]
  by_cases hmem : (rootX ≤ px ∧ px < rootX + w ∧ rootY ≤ py ∧ py < rootY + h)
  · by_cases hbnd : py < mapSize ∧ px < mapSize
    · rw [if_pos ⟨(mem_rectCells rootX rootY w h px py).mpr hmem, hbnd⟩,
        if_pos ⟨hmem, hbnd⟩]
      rfl
    · rw [if_neg (fun hh => hbnd hh.2), if_neg (fun hh => hbnd hh.2)]
  · rw [if_neg (fun hh => hmem ((mem_rectCells rootX rootY w h px py).mp
        hh.1)), if_neg (fun hh => hmem hh.1)]

/-- A spot that passed the auto-builder's validity scan covers only empty
tiles at the origin tile's height. -/
lemma autoSpotBlocked_eq_false (g : GridF) (x y : ℤ) (w h : ℕ)
    (hb : autoSpotBlocked g x y w h = false) (i j : ℕ) (hi : i < w)
    (hj : j < h) :
    (tileAt g (x + i) (y + j)).buildingType = BuildingType.None ∧
    (tileAt g (x + i) (y + j)).height = (tileAt g x y).height := by
  unfold autoSpotBlocked at hb
  rw [List.any_eq_false] at hb
  have hcell := hb (x + i, y + j)
    ((mem_rectCells x y w h (x + i) (y + j)).mpr (by omega))
  simp only [Bool.or_eq_true, decide_eq_true_eq, not_or] at hcell
  exact ⟨not_not.mp hcell.1, not_not.mp hcell.2⟩

/-- Any site returned by the search loop passed all three checks: it is
inside the map, its footprint fits, and its tiles are empty and flat. -/
lemma findSite_spec (g : GridF) (mapSize : ℤ) (w h : ℕ) :
    ∀ (attempts : List (ℤ × ℤ)) (x y : ℤ),
      findSite g mapSize w h attempts = some (x, y) →
      0 ≤ x ∧ 0 ≤ y ∧ x + w ≤ mapSize ∧ y + h ≤ mapSize ∧
      autoSpotBlocked g x y w h = false := by
  intro attempts
  induction attempts with
  | nil => intro x y hf; simp [findSite] at hf
  | cons c rest ih =>
    intro x y hf
    obtain ⟨cx, cy⟩ := c
    rw [findSite] at hf
    split at hf
    · exact ih x y hf
    · split at hf
      · exact ih x y hf
      · split at hf
        · exact ih x y hf
        · have hxy : cx = x ∧ cy = y := by
            have h1 := Option.some.inj hf
            exact ⟨congrArg Prod.fst h1, congrArg Prod.snd h1⟩
          obtain ⟨rfl, rfl⟩ := hxy
          have h1 : ¬(cx < 0 ∨ cy < 0 ∨ cx ≥ mapSize ∨ cy ≥ mapSize) := by
            assumption
          have h2 : ¬((cx + w : ℤ) > mapSize ∨ (cy + h : ℤ) > mapSize) := by
            assumption
          have h3 : ¬(autoSpotBlocked g cx cy w h = true) := by assumption
          push_neg at h1 h2
          exact ⟨h1.1, h1.2.1, by linarith [h2.1], by linarith [h2.2],
            Bool.not_eq_true _ ▸ (Bool.eq_false_iff.mpr (fun hh =>
              h3 hh))⟩

/-- A spot that passed the basic validity scan covers only empty tiles. -/
lemma autoSpotOccupiedB_eq_false (g : GridF) (x y : ℤ) (w h : ℕ)
    (hb : autoSpotOccupiedB g x y w h = false) (i j : ℕ) (hi : i < w)
    (hj : j < h) :
    (tileAt g (x + i) (y + j)).buildingType = BuildingType.None := by
  unfold autoSpotOccupiedB at hb
  rw [List.any_eq_false] at hb
  have hcell := hb (x + i, y + j)
    ((mem_rectCells x y w h (x + i) (y + j)).mpr (by omega))
  simp only [decide_eq_true_eq] at hcell
  exact not_not.mp hcell

/-- Any site returned by the basic search loop fits the map (given that
every candidate is an in-map coordinate, as `Math.floor(Math.random() *
mapSize)` guarantees) and covers only empty tiles. -/
lemma findSiteB_spec (g : GridF) (mapSize : ℤ) (w h : ℕ) :
    ∀ (attempts : List (ℤ × ℤ)),
      (∀ p ∈ attempts, 0 ≤ p.1 ∧ p.1 < mapSize ∧ 0 ≤ p.2 ∧ p.2 < mapSize) →
      ∀ (x y : ℤ), findSiteB g mapSize w h attempts = some (x, y) →
      0 ≤ x ∧ 0 ≤ y ∧ x + w ≤ mapSize ∧ y + h ≤ mapSize ∧
      autoSpotOccupiedB g x y w h = false := by
  intro attempts
  induction attempts with
  | nil => intro _ x y hf; simp [findSiteB] at hf
  | cons c rest ih =>
    intro hatt x y hf
    obtain ⟨cx, cy⟩ := c
    rw [findSiteB] at hf
    split at hf
    · exact ih (fun p hp => hatt p (List.mem_cons_of_mem _ hp)) x y hf
    · split at hf
      · exact ih (fun p hp => hatt p (List.mem_cons_of_mem _ hp)) x y hf
      · have hxy : cx = x ∧ cy = y := by
          have h1 := Option.some.inj hf
          exact ⟨congrArg Prod.fst h1, congrArg Prod.snd h1⟩
        obtain ⟨rfl, rfl⟩ := hxy
        have h2 : ¬((cx + w : ℤ) > mapSize ∨ (cy + h : ℤ) > mapSize) := by
          assumption
        have h3 : ¬(autoSpotOccupiedB g cx cy w h = true) := by assumption
        have h4 := hatt (cx, cy) (List.mem_cons_self _ _)
        push_neg at h2
        exact ⟨h4.1, h4.2.2.1, by linarith [h2.1], by linarith [h2.2],
          Bool.eq_false_iff.mpr (fun hh => h3 hh)⟩

/-- C7: whenever `attemptAutoBuild` places a building, the selected kind
was affordable (money ≥ its cost and ≥ the safety buffer, so the debited
balance stays nonnegative) and the chosen footprint lies fully inside the
map and covers only empty tiles — in the extended variant all at the
origin tile's height — exactly the conditions the placement validator
checks; on every other path the grid and money are unchanged.  The second
half states the same for the basic variant (buffer 500, occupancy-only
scan, candidates always in-map as `Math.floor(Math.random() * mapSize)`
produces). -/
theorem c7_autobuild_safety (cat : Catalog) (mapSize : ℤ) (n : ℕ)
    (available : List BuildingType) (g : GridF) (stats : CityStats)
    (o : AutoOracle) :
    ((∀ t x y,
      (attemptAutoBuild cat mapSize n available g stats o).site =
        some (t, x, y) →
      (cat t).cost ≤ stats.money ∧ 300 ≤ stats.money ∧
      (attemptAutoBuild cat mapSize n available g stats o).money =
        stats.money - (cat t).cost ∧
      0 ≤ (attemptAutoBuild cat mapSize n available g stats o).money ∧
      0 ≤ x ∧ 0 ≤ y ∧ x + (cat t).width ≤ mapSize ∧
      y + (cat t).height ≤ mapSize ∧
      (∀ i j : ℕ, i < (cat t).width → j < (cat t).height →
        (tileAt g (x + i) (y + j)).buildingType = BuildingType.None ∧
        (tileAt g (x + i) (y + j)).height = (tileAt g x y).height) ∧
      (attemptAutoBuild cat mapSize n available g stats o).grid =
        placeFootprint g x y (cat t).width (cat t).height t o.variant) ∧
    ((attemptAutoBuild cat mapSize n available g stats o).site = none →
      (attemptAutoBuild cat mapSize n available g stats o).grid = g ∧
      (attemptAutoBuild cat mapSize n available g stats o).money =
        stats.money)) ∧
    (∀ (availB : List BuildingType) (moneyB : ℚ) (oB : AutoOracleB),
      (∀ p ∈ oB.attempts,
        0 ≤ p.1 ∧ p.1 < mapSize ∧ 0 ≤ p.2 ∧ p.2 < mapSize) →
      (∀ t x y,
        (attemptAutoBuildB cat mapSize availB g moneyB oB).site =
          some (t, x, y) →
        (cat t).cost ≤ moneyB ∧ 500 ≤ moneyB ∧
        (attemptAutoBuildB cat mapSize availB g moneyB oB).money =
          moneyB - (cat t).cost ∧
        0 ≤ (attemptAutoBuildB cat mapSize availB g moneyB oB).money ∧
        0 ≤ x ∧ 0 ≤ y ∧ x + (cat t).width ≤ mapSize ∧
        y + (cat t).height ≤ mapSize ∧
        (∀ i j : ℕ, i < (cat t).width → j < (cat t).height →
          (tileAt g (x + i) (y + j)).buildingType = BuildingType.None)) ∧
      ((attemptAutoBuildB cat mapSize availB g moneyB oB).site = none →
        (attemptAutoBuildB cat mapSize availB g moneyB oB).grid = g ∧
        (attemptAutoBuildB cat mapSize availB g moneyB oB).money =
          moneyB)) := by
  have hbasic :
      ∀ (availB : List BuildingType) (moneyB : ℚ) (oB : AutoOracleB),
      (∀ p ∈ oB.attempts,
        0 ≤ p.1 ∧ p.1 < mapSize ∧ 0 ≤ p.2 ∧ p.2 < mapSize) →
      (∀ t x y,
        (attemptAutoBuildB cat mapSize availB g moneyB oB).site =
          some (t, x, y) →
        (cat t).cost ≤ moneyB ∧ 500 ≤ moneyB ∧
        (attemptAutoBuildB cat mapSize availB g moneyB oB).money =
          moneyB - (cat t).cost ∧
        0 ≤ (attemptAutoBuildB cat mapSize availB g moneyB oB).money ∧
        0 ≤ x ∧ 0 ≤ y ∧ x + (cat t).width ≤ mapSize ∧
        y + (cat t).height ≤ mapSize ∧
        (∀ i j : ℕ, i < (cat t).width → j < (cat t).height →
          (tileAt g (x + i) (y + j)).buildingType = BuildingType.None)) ∧
      ((attemptAutoBuildB cat mapSize availB g moneyB oB).site = none →
        (attemptAutoBuildB cat mapSize availB g moneyB oB).grid = g ∧
        (attemptAutoBuildB cat mapSize availB g moneyB oB).money =
          moneyB) := by
    intro availB moneyB oB hatt
    unfold attemptAutoBuildB
    split
    · exact ⟨fun t x y hsite => absurd hsite (by simp), fun _ => ⟨rfl, rfl⟩⟩
    · rename_i h500
      dsimp only
      rcases hP : pickCandidate (availB.filter fun b =>
          decide (b ≠ BuildingType.None ∧ b ≠ BuildingType.Road))
          oB.pick with _ | typeToBuild
      · exact ⟨fun t x y hsite => absurd hsite (by simp),
          fun _ => ⟨rfl, rfl⟩⟩
      · dsimp only
        split
        · exact ⟨fun t x y hsite => absurd hsite (by simp),
            fun _ => ⟨rfl, rfl⟩⟩
        · rename_i hcost
          rcases hF : findSiteB g mapSize (cat typeToBuild).width
              (cat typeToBuild).height oB.attempts with _ | ⟨sx, sy⟩
          · exact ⟨fun t x y hsite => absurd hsite (by simp),
              fun _ => ⟨rfl, rfl⟩⟩
          · constructor
            · intro t x y hsite
              have hinj := Option.some.inj hsite
              have ht : typeToBuild = t := congrArg Prod.fst hinj
              have hx : sx = x := congrArg (fun p => p.2.1) hinj
              have hy : sy = y := congrArg (fun p => p.2.2) hinj
              subst ht hx hy
              have hspec := findSiteB_spec g mapSize (cat typeToBuild).width
                (cat typeToBuild).height oB.attempts hatt sx sy hF
              push_neg at h500 hcost
              refine ⟨hcost, h500, rfl, by dsimp only; linarith,
                hspec.1, hspec.2.1, hspec.2.2.1, hspec.2.2.2.1, ?_⟩
              intro i j hi hj
              exact autoSpotOccupiedB_eq_false g sx sy _ _ hspec.2.2.2.2
                i j hi hj
            · intro hsite
              exact absurd hsite (by simp)
  refine ⟨?_, hbasic⟩
  unfold attemptAutoBuild
  split
  · exact ⟨fun t x y hsite => absurd hsite (by simp), fun _ => ⟨rfl, rfl⟩⟩
  · rename_i h300
    rcases hT : autoTarget available stats g n o with _ | targetType
    · exact ⟨fun t x y hsite => absurd hsite (by simp), fun _ => ⟨rfl, rfl⟩⟩
    · dsimp only
      split
      · exact ⟨fun t x y hsite => absurd hsite (by simp),
          fun _ => ⟨rfl, rfl⟩⟩
      · rename_i hcost
        rcases hF : findSite g mapSize (cat targetType).width
            (cat targetType).height o.attempts with _ | ⟨sx, sy⟩
        · exact ⟨fun t x y hsite => absurd hsite (by simp),
            fun _ => ⟨rfl, rfl⟩⟩
        · constructor
          · intro t x y hsite
            have hinj := Option.some.inj hsite
            have ht : targetType = t := congrArg Prod.fst hinj
            have hx : sx = x := congrArg (fun p => p.2.1) hinj
            have hy : sy = y := congrArg (fun p => p.2.2) hinj
            subst ht hx hy
            have hspec := findSite_spec g mapSize (cat targetType).width
              (cat targetType).height o.attempts sx sy hF
            push_neg at h300 hcost
            refine ⟨hcost, h300, rfl, by dsimp only; linarith,
              hspec.1, hspec.2.1, hspec.2.2.1, hspec.2.2.2.1, ?_, rfl⟩
            intro i j hi hj
            exact autoSpotBlocked_eq_false g sx sy _ _ hspec.2.2.2.2 i j
              hi hj
          · intro hsite
            exact absurd hsite (by simp)

/-- A deterministic oracle for the auto-build witness: one candidate site
at the origin. -/
def oAuto : AutoOracle :=
  { ecoIdx := 0, greenRoadRoll := false, attempts := [(0, 0)], variant := 0 }

/-- Witness for C7: on an empty 1×1 map with solar panels unlocked, the
auto-builder places a solar panel at the origin, and the placement was
affordable and debited exactly its cost. -/
theorem c7_autobuild_safety_witness :
    (attemptAutoBuild cat0 1 1 [BuildingType.SolarPanel] gEmpty
        initialStats oAuto).site =
      some (BuildingType.SolarPanel, 0, 0) ∧
    (cat0 BuildingType.SolarPanel).cost ≤ initialStats.money ∧
    (attemptAutoBuild cat0 1 1 [BuildingType.SolarPanel] gEmpty
        initialStats oAuto).money =
      initialStats.money - (cat0 BuildingType.SolarPanel).cost := by
  have hsite : (attemptAutoBuild cat0 1 1 [BuildingType.SolarPanel] gEmpty
      initialStats oAuto).site = some (BuildingType.SolarPanel, 0, 0) := by
    norm_num +decide [attemptAutoBuild, autoTarget, autoResidentialCount,
      tilesOf, List.range_succ, findSite, autoSpotBlocked, rectCells,
      tileAt, gEmpty, cat0, initialStats, oAuto, mkTile]
  have h := (c7_autobuild_safety cat0 1 1 [BuildingType.SolarPanel] gEmpty
    initialStats oAuto).1.1 BuildingType.SolarPanel 0 0 hsite
  exact ⟨hsite, h.1, h.2.2.1⟩

end LunarBase
